import Mathlib

/-!
Verification development for the conan recipes of this repository
(`conan/conanfile.py`, `conan/libp11conan.py`) together with the
recipe-based dependency resolution and build orchestration engine that
interprets them.  The two recipe files are embedded directly from the
source; the engine components (dependency graph builder, option store,
lifecycle executor, external process bridge) are not part of the
repository sources, so they are modelled from the design spec where a
claim needs them.
-/

namespace ConanSpec

/-- A package reference `name/version[@user/channel]`, as in the spec's
data model `PackageRef {name, version, user?, channel?}`. -/
structure PackageRef where
  name : String
  version : String
  user : Option String := none
  channel : Option String := none
deriving DecidableEq, Repr

/-- Kind of a dependency edge: `requires` vs `tool_requires`
(spec: `Requires | BuildRequires`). -/
inductive DepKind
  | requiresDep
  | buildRequiresDep
deriving DecidableEq, Repr

/-- A dependency edge between two graph nodes, identified by package name. -/
structure Edge where
  src : String
  dst : String
  kind : DepKind
deriving DecidableEq, Repr

/-- The recipes that exist in this model: the application root recipe
(`AosCoreIAMCPP` in `conanfile.py`), the libp11 recipe
(`LibP11` in `libp11conan.py`), and the externally provided leaf
packages the root requires. -/
inductive RecipeId
  | appRoot
  | libp11R
  | gtestR
  | grpcR
  | opensslR
  | pocoR
  | protobufR
deriving DecidableEq, Repr

def gtestRef : PackageRef := ⟨"gtest", "1.14.0", none, none⟩
def grpcRef : PackageRef := ⟨"grpc", "1.54.3", none, none⟩
def opensslRef : PackageRef := ⟨"openssl", "3.2.1", none, none⟩
def pocoRef : PackageRef := ⟨"poco", "1.13.2", none, none⟩
def protobufRef : PackageRef := ⟨"protobuf", "3.21.12", none, none⟩

/-- The reference `libp11/0.4.11@user/stable` required by
`AosCoreIAMCPP.requirements` (conanfile.py line 21). -/
def libp11Ref : PackageRef := ⟨"libp11", "0.4.11", some "user", some "stable"⟩

/-- `LibP11.name` (libp11conan.py line 8). -/
def libp11Name : String := "libp11"

/-- `LibP11.branch` (libp11conan.py line 9). -/
def libp11Branch : String := "libp11-0.4.11"

/-- `LibP11.version` (libp11conan.py line 10). -/
def libp11Version : String := "0.4.11"

/-- The application conanfile declares no `name`/`version` attribute; the
root node is identified by a placeholder name distinct from every
dependency name. -/
def rootName : String := "aos-core-sm-cpp"

def rootRef : PackageRef := ⟨rootName, "", none, none⟩

/-- One step of a `requirements()` hook: either registering (exporting) a
recipe into the engine's recipe registry with a user and channel, or
declaring a requirement on a reference.  The spec allows a hook to
"register an entirely new recipe definition into the engine's recipe
registry before referencing it". -/
inductive ReqAction
  | exportRecipe (rid : RecipeId) (user channel : String)
  | requireRef (ref : PackageRef)
deriving DecidableEq, Repr

/-- `AosCoreIAMCPP.requirements` (conanfile.py lines 11-21), in source
order: `gtest/1.14.0`, `grpc/1.54.3`, `openssl/3.2.1`, then
`poco/1.13.2` only when `with_poco` is set, then
`conan export libp11conan.py --user user --channel stable` as a side
effect, then `libp11/0.4.11@user/stable`. -/
def appRequirements (withPoco : Bool) : List ReqAction :=
  [ReqAction.requireRef gtestRef, ReqAction.requireRef grpcRef,
   ReqAction.requireRef opensslRef]
  ++ (if withPoco then [ReqAction.requireRef pocoRef] else [])
  ++ [ReqAction.exportRecipe RecipeId.libp11R "user" "stable",
      ReqAction.requireRef libp11Ref]

/-- `LibP11.requirements` (libp11conan.py lines 13-14): a single
`openssl/3.2.1` requirement. -/
def libp11Requirements : List ReqAction := [ReqAction.requireRef opensslRef]

/-- Requirements hook of each recipe.  Modelled from the spec for the
external leaf packages (gtest, grpc, openssl, poco, protobuf): their own
recipes live in a remote registry, an external collaborator, and are
treated as leaves with no further requirements. -/
def reqActions (r : RecipeId) (withPoco : Bool) : List ReqAction :=
  match r with
  | RecipeId.appRoot => appRequirements withPoco
  | RecipeId.libp11R => libp11Requirements
  | _ => []

/-- `AosCoreIAMCPP.build_requirements` (conanfile.py lines 23-25):
tool requirements `protobuf/3.21.12` and `grpc/1.54.3`. -/
def appBuildRequirements : List PackageRef := [protobufRef, grpcRef]

/-- Build requirements hook of each recipe; only the root declares any. -/
def buildReqs (r : RecipeId) : List PackageRef :=
  match r with
  | RecipeId.appRoot => appBuildRequirements
  | _ => []

/-- Declared reference of each recipe.  The libp11 recipe declares
`name = "libp11"`, `version = "0.4.11"` (libp11conan.py lines 8-10);
the external leaves carry the references the root requires them by. -/
def recipeRef : RecipeId → PackageRef
  | RecipeId.appRoot => rootRef
  | RecipeId.libp11R => ⟨libp11Name, libp11Version, none, none⟩
  | RecipeId.gtestR => gtestRef
  | RecipeId.grpcR => grpcRef
  | RecipeId.opensslR => opensslRef
  | RecipeId.pocoR => pocoRef
  | RecipeId.protobufR => protobufRef

def recipeName (r : RecipeId) : String := (recipeRef r).name

/-- The reference under which `conan export <recipe> --user <u> --channel <c>`
registers a recipe: the recipe's own declared name and version combined
with the user and channel given on the command line. -/
def exportedRef (rid : RecipeId) (u c : String) : PackageRef :=
  { recipeRef rid with user := some u, channel := some c }

/-- One option write issued by a `configure()` hook: target node name,
option key, boolean value. -/
structure OptWrite where
  target : String
  key : String
  value : Bool
deriving DecidableEq, Repr

/-- Configure hooks, embedded from source.
`AosCoreIAMCPP.configure` (conanfile.py lines 27-29) writes
`self.options["openssl"].no_dso = False` then
`self.options["openssl"].shared = True`;
`LibP11.configure` (libp11conan.py lines 16-17) writes
`self.options["openssl"].shared = True`. -/
def configureWrites : RecipeId → List OptWrite
  | RecipeId.appRoot => [⟨"openssl", "no_dso", false⟩, ⟨"openssl", "shared", true⟩]
  | RecipeId.libp11R => [⟨"openssl", "shared", true⟩]
  | _ => []

/-- One pinned entry of the option store: target node, key, value, and
the graph depth of the writer that pinned it (root is depth 0). -/
structure OptEntry where
  node : String
  key : String
  value : Bool
  writerDepth : Nat
deriving DecidableEq, Repr

/-- The option store: a list of pinned entries; an absent key means the
recipe's own declared default is retained. -/
abbrev Store := List OptEntry

def lookupEntry (st : Store) (n k : String) : Option OptEntry :=
  st.find? (fun e => e.node == n && e.key == k)

def lookupValue (st : Store) (n k : String) : Option Bool :=
  (lookupEntry st n k).map OptEntry.value

/-- Modelled from the spec (Option Store, section 4.2): apply a single
override write issued by a node at depth `d`; "a dependency option
already pinned by a closer ancestor is not overwritten by a farther one
(closest-wins)", and "later overrides in traversal order replace earlier
ones for the same key" at equal distance. -/
def applyWrite (st : Store) (d : Nat) (w : OptWrite) : Store :=
  match lookupEntry st w.target w.key with
  | none => ⟨w.target, w.key, w.value, d⟩ :: st
  | some e =>
    if d ≤ e.writerDepth then
      ⟨w.target, w.key, w.value, d⟩ ::
        st.filter (fun e2 => !(e2.node == w.target && e2.key == w.key))
    else st

/-- Settle a sequence of (writer depth, write) pairs in discovery order. -/
def settle (ws : List (Nat × OptWrite)) : Store :=
  ws.foldl (fun st dw => applyWrite st dw.1 dw.2) []

/-- Apply all of one recipe's `configure()` writes, issued at depth `d`,
to a store. -/
def applyConfigure (r : RecipeId) (d : Nat) (st : Store) : Store :=
  (configureWrites r).foldl (fun s w => applyWrite s d w) st

/-- Events recorded by the graph builder while it resolves the graph. -/
inductive TraceEv
  | registered (name : String)
  | requiredEv (src dst : String) (k : DepKind)
  | entered (name : String)
deriving DecidableEq, Repr

/-- Pending work of the builder: enter a recipe's requirement hooks, or
handle one requirement action issued by a named node. -/
inductive Job
  | enterNode (rid : RecipeId)
  | action (srcName : String) (a : ReqAction) (k : DepKind)
deriving DecidableEq, Repr

/-- Resolution state: resolved nodes in discovery order, dependency
edges, the dynamically registered part of the recipe registry, the
event trace, and the first resolution error if any. -/
structure BuildState where
  nodes : List PackageRef
  edges : List Edge
  dynRegistry : List (String × RecipeId)
  trace : List TraceEv
  failed : Option String
deriving Repr

/-- The part of the recipe registry known before resolution starts: the
external leaf packages, available from the remote registry (an external
collaborator).  The libp11 recipe is deliberately absent: it only enters
the registry when the root's `requirements()` exports it. -/
def knownRegistry : List (String × RecipeId) :=
  [("gtest", RecipeId.gtestR), ("grpc", RecipeId.grpcR),
   ("openssl", RecipeId.opensslR), ("poco", RecipeId.pocoR),
   ("protobuf", RecipeId.protobufR)]

/-- Modelled from the spec (Dependency Graph Builder, section 4.3): work
through the job list; a `requireRef` whose `name` already has a node
reuses that node when the refs are identical (merging the edge) and is a
"conflicting versions" error otherwise; a newly required node whose
recipe was dynamically registered during this run is re-entered
immediately, before the outer traversal continues; other new nodes join
the frontier either at the front (`stackF = true`) or at the back.
`toolFirst` varies whether a node's `build_requirements()` are handled
before or after its `requirements()`.  Fuel bounds the recursion. -/
def runJobs : Nat → Bool → Bool → Bool → BuildState → List Job → BuildState
  | 0, _, _, _, st, _ => { st with failed := some "fuel exhausted" }
  | _ + 1, _, _, _, st, [] => st
  | f + 1, stackF, toolFirst, wp, st, Job.enterNode rid :: rest =>
    let nm := recipeName rid
    let st1 := { st with trace := st.trace ++ [TraceEv.entered nm] }
    let reqJobs := (reqActions rid wp).map
      (fun a => Job.action nm a DepKind.requiresDep)
    let toolJobs := (buildReqs rid).map
      (fun r => Job.action nm (ReqAction.requireRef r) DepKind.buildRequiresDep)
    let myJobs := if toolFirst then toolJobs ++ reqJobs else reqJobs ++ toolJobs
    runJobs f stackF toolFirst wp st1 (myJobs ++ rest)
  | f + 1, stackF, toolFirst, wp, st, Job.action src a k :: rest =>
    match a with
    | ReqAction.exportRecipe rid _u _c =>
      let st1 := { st with
        dynRegistry := st.dynRegistry ++ [(recipeName rid, rid)],
        trace := st.trace ++ [TraceEv.registered (recipeName rid)] }
      runJobs f stackF toolFirst wp st1 rest
    | ReqAction.requireRef r =>
      let st1 : BuildState := { st with
        edges := st.edges ++ [Edge.mk src r.name k],
        trace := st.trace ++ [TraceEv.requiredEv src r.name k] }
      match st1.nodes.find? (fun p => p.name == r.name) with
      | some p =>
        if p = r then runJobs f stackF toolFirst wp st1 rest
        else runJobs f stackF toolFirst wp
          { st1 with failed := some ("conflicting versions of " ++ r.name) } rest
      | none =>
        let st2 : BuildState := { st1 with nodes := st1.nodes ++ [r] }
        match st2.dynRegistry.find? (fun nr => nr.1 == r.name) with
        | some (_, rid2) => runJobs f stackF toolFirst wp st2 (Job.enterNode rid2 :: rest)
        | none =>
          match knownRegistry.find? (fun nr => nr.1 == r.name) with
          | some (_, rid2) =>
            let rest2 := if stackF then Job.enterNode rid2 :: rest
                         else rest ++ [Job.enterNode rid2]
            runJobs f stackF toolFirst wp st2 rest2
          | none =>
            runJobs f stackF toolFirst wp
              { st2 with failed := some ("unknown recipe reference " ++ r.name) } rest

/-- Resolve the graph of the application root recipe.  `stackF` and
`toolFirst` are internal traversal-order choices; `wp` is the root's
`with_poco` option value. -/
def buildGraph (stackF toolFirst wp : Bool) : BuildState :=
  runJobs 64 stackF toolFirst wp
    ⟨[rootRef], [], [], [], none⟩ [Job.enterNode RecipeId.appRoot]

/-- Name-to-recipe map over all recipes of this model, used when the
settled graph replays each node's `configure()` writes. -/
def nameToRid (n : String) : Option RecipeId :=
  (((rootName, RecipeId.appRoot) :: knownRegistry)
    ++ [("libp11", RecipeId.libp11R)]).find? (fun nr => nr.1 == n) |>.map Prod.snd

/-- One Bellman-Ford style relaxation of a distance map along one edge. -/
def relaxEdge (dm : List (String × Nat)) (e : Edge) : List (String × Nat) :=
  match dm.find? (fun p => p.1 == e.src) with
  | none => dm
  | some (_, ds) =>
    match dm.find? (fun p => p.1 == e.dst) with
    | none => dm ++ [(e.dst, ds + 1)]
    | some (_, dd) =>
      if ds + 1 < dd then (e.dst, ds + 1) :: dm.filter (fun p => p.1 != e.dst)
      else dm

def relaxAll (edges : List Edge) (dm : List (String × Nat)) :
    List (String × Nat) :=
  edges.foldl relaxEdge dm

/-- Distance of every reachable node from the root (root at depth 0),
by iterated relaxation; 8 rounds exceed any path length in this graph. -/
def depthMap (edges : List Edge) : List (String × Nat) :=
  Nat.iterate (relaxAll edges) 8 [(rootName, 0)]

def nodeDepth (edges : List Edge) (n : String) : Nat :=
  (((depthMap edges).find? (fun p => p.1 == n)).map Prod.snd).getD 1000

/-- Modelled from the spec (sections 4.2 and 4.4): the `configure` pass
runs top-down, replaying each resolved node's `configure()` writes in
node discovery order, each tagged with the writer's graph depth. -/
def graphWrites (g : BuildState) : List (Nat × OptWrite) :=
  g.nodes.flatMap (fun p =>
    match nameToRid p.name with
    | some rid => (configureWrites rid).map
        (fun w => (nodeDepth g.edges p.name, w))
    | none => [])

/-- Final option store of a resolved graph. -/
def settleGraph (g : BuildState) : Store := settle (graphWrites g)

/-- One breadth step of reachability over a fixed edge list. -/
def closureStep (es : List Edge) (s : List String) : List String :=
  s ++ ((es.filter (fun e => s.contains e.src && !(s.contains e.dst))).map
    Edge.dst).eraseDups

/-- Names reachable from `start`; 8 rounds exceed any path length here. -/
def reachFrom (es : List Edge) (start : String) : List String :=
  Nat.iterate (closureStep es) 8 [start]

/-- Modelled from the spec (DependencyEdge): the runtime dependency
closure exposed to consumers follows `Requires` edges only. -/
def runtimeClosure (g : BuildState) : List String :=
  reachFrom (g.edges.filter (fun e => e.kind == DepKind.requiresDep)) rootName

/-- Modelled from the spec (DependencyEdge): the build-time execution
graph follows both `Requires` and `BuildRequires` edges. -/
def buildtimeClosure (g : BuildState) : List String :=
  reachFrom g.edges rootName

/-- Per-node lifecycle phases that run in dependency order, after the
top-down `configure`/`layout` pass.  Modelled from the spec (control
flow, section 2): "then for each node in dependency order: `source` ...,
`generate` ..., `build`, `package`". -/
inductive Phase
  | sourceP
  | generateP
  | buildP
  | packageP
deriving DecidableEq, Repr, Fintype

def nodePhaseOrder : List Phase :=
  [Phase.sourceP, Phase.generateP, Phase.buildP, Phase.packageP]

/-- Process-bridge steps a libp11 phase issues. -/
inductive BuildStep
  | cloneStep
  | genToolchain
  | genAutotoolsDeps
  | genPkgConfigDeps
  | autoreconfStep
  | configureStep
  | makeStep
  | installStep
deriving DecidableEq, Repr

/-- Steps issued by each phase of the libp11 recipe, embedded from
libp11conan.py: `source()` clones (lines 19-22), `generate()` emits the
toolchain and dependency descriptors (lines 27-35), `build()` runs
`autoreconf()`, `configure()`, `make()` (lines 37-41), and `package()`
runs `install()` (lines 43-45). -/
def libp11PhaseSteps : Phase → List BuildStep
  | Phase.sourceP => [BuildStep.cloneStep]
  | Phase.generateP =>
      [BuildStep.genToolchain, BuildStep.genAutotoolsDeps,
       BuildStep.genPkgConfigDeps]
  | Phase.buildP =>
      [BuildStep.autoreconfStep, BuildStep.configureStep, BuildStep.makeStep]
  | Phase.packageP => [BuildStep.installStep]

/-- The full step sequence of the libp11 node, phases in engine order. -/
def libp11Steps : List BuildStep := nodePhaseOrder.flatMap libp11PhaseSteps

/-- A `git clone` command issued through the process bridge. -/
structure CloneCmd where
  url : String
  depth : Nat
  branchSel : String
  target : String
deriving DecidableEq, Repr

/-- The clone commands issued by `LibP11.source` (libp11conan.py lines
19-22): exactly one shallow clone of the upstream repository, with
`--depth 1 --branch self.branch`, into the current source directory. -/
def libp11SourceCmds : List CloneCmd :=
  [⟨"https://github.com/OpenSC/libp11.git", 1, libp11Branch, "."⟩]

/-- Source retrieval failure, per the spec's error taxonomy. -/
inductive FetchError
  | fetchFailed (url : String)
deriving DecidableEq, Repr

/-- Modelled from the spec (External Process Bridge, section 4.5):
`fetchSource` "fails with FetchError on network/auth/ref-not-found";
`ok` abstracts whether the underlying fetch succeeds. -/
def fetchSource (ok : Bool) (c : CloneCmd) : Except FetchError Unit :=
  if ok then Except.ok () else Except.error (FetchError.fetchFailed c.url)

/-- Running `LibP11.source`: perform its clone commands through the
process bridge, propagating the first failure. -/
def libp11Source (ok : Bool) : Except FetchError Unit :=
  libp11SourceCmds.foldlM (fun _ c => fetchSource ok c) ()

/-- The requirement references returned by `AosCoreIAMCPP.requirements`,
forgetting the export side effect. -/
def appRequiredRefs (wp : Bool) : List PackageRef :=
  (appRequirements wp).filterMap (fun a =>
    match a with
    | ReqAction.requireRef r => some r
    | _ => none)

theorem find?_filter_of_imp {α : Type} (p q : α → Bool) (l : List α)
    (h : ∀ e, p e = true → q e = true) :
    (l.filter q).find? p = l.find? p := by
  induction l with
  | nil => rfl
  | cons a l ih =>
    by_cases hq : q a = true
    · simp only [List.filter_cons, hq, if_true, List.find?]
      cases hp : p a <;> simp [hp, ih]
    · have hp : p a = false := by
        cases hpa : p a with
        | false => rfl
        | true => exact absurd (h a hpa) hq
      simp only [List.filter_cons, hq, if_false, List.find?, hp]
      exact ih

theorem lookupValue_applyWrite_ne (st : Store) (d : Nat) (w : OptWrite)
    (n k : String) (h : w.target ≠ n) :
    lookupValue (applyWrite st d w) n k = lookupValue st n k := by
  have hbeq : (w.target == n) = false := by
    simp only [beq_eq_false_iff_ne, ne_eq]
    exact h
  unfold applyWrite
  cases hl : lookupEntry st w.target w.key with
  | none =>
    simp only [lookupValue, lookupEntry, List.find?, hbeq, Bool.false_and]
  | some e =>
    by_cases hd : d ≤ e.writerDepth
    · simp only [hd, if_true, lookupValue, lookupEntry, List.find?, hbeq,
        Bool.false_and]
      rw [find?_filter_of_imp]
      intro e2 he2
      have hn : (e2.node == n) = true := (Bool.and_eq_true _ _).mp he2 |>.1
      have : e2.node = n := by simpa using hn
      have htg : (e2.node == w.target) = false := by
        simp only [beq_eq_false_iff_ne, ne_eq, this]
        exact fun hc => h hc.symm
      simp [htg]
    · simp [hd]

theorem lookupValue_foldl_writes (ws : List OptWrite) (d : Nat) (st : Store)
    (n k : String) (h : ∀ w ∈ ws, w.target ≠ n) :
    lookupValue (ws.foldl (fun s w => applyWrite s d w) st) n k
      = lookupValue st n k := by
  induction ws generalizing st with
  | nil => rfl
  | cons w ws ih =>
    simp only [List.foldl_cons]
    rw [ih _ (fun w2 hw2 => h w2 (List.mem_cons_of_mem _ hw2)),
      lookupValue_applyWrite_ne _ _ _ _ _ (h w (List.mem_cons_self _ _))]

/-- Root's configure writes tagged with the root's depth 0. -/
def rootDepthWrites : List (Nat × OptWrite) :=
  (configureWrites RecipeId.appRoot).map (fun w => (0, w))

/-- libp11's configure writes tagged with its depth 1 (one edge from root). -/
def libDepthWrites : List (Nat × OptWrite) :=
  (configureWrites RecipeId.libp11R).map (fun w => (1, w))

/-- C1: every resolution run on the application root recipe (any
traversal-order choice, any `with_poco` value) yields a graph whose node
names are pairwise distinct, with exactly one openssl node even though
both the root's and libp11's `requirements()` return the identical
reference `openssl/3.2.1`; the builder merges the two edges onto the
single openssl node and resolution succeeds. -/
theorem C1_unique_node_per_name : ∀ (s t wp : Bool),
    ((buildGraph s t wp).nodes.map PackageRef.name).Nodup ∧
    ((buildGraph s t wp).nodes.filter (fun p => p.name == "openssl")).length = 1 ∧
    ReqAction.requireRef opensslRef ∈ appRequirements wp ∧
    ReqAction.requireRef opensslRef ∈ libp11Requirements ∧
    Edge.mk rootName "openssl" DepKind.requiresDep ∈ (buildGraph s t wp).edges ∧
    Edge.mk "libp11" "openssl" DepKind.requiresDep ∈ (buildGraph s t wp).edges ∧
    (buildGraph s t wp).failed = none := by
  decide

/-- C2: with both the root (depth 0) and libp11 (depth 1) writing the
openssl node's options during configure, the settled values are the
root's — `shared = true`, `no_dso = false` — under either discovery
order of the two configure hooks, and in both orders the surviving pin
for each key carries writer depth 0, i.e. the closer ancestor's pin was
not overwritten by the farther node's write; the resolved graph's
settled store agrees. -/
theorem C2_closest_wins_openssl : ∀ (s t wp : Bool),
    lookupValue (settle (rootDepthWrites ++ libDepthWrites)) "openssl" "shared"
      = some true ∧
    lookupValue (settle (rootDepthWrites ++ libDepthWrites)) "openssl" "no_dso"
      = some false ∧
    lookupValue (settle (libDepthWrites ++ rootDepthWrites)) "openssl" "shared"
      = some true ∧
    lookupValue (settle (libDepthWrites ++ rootDepthWrites)) "openssl" "no_dso"
      = some false ∧
    (lookupEntry (settle (rootDepthWrites ++ libDepthWrites)) "openssl"
      "shared").map OptEntry.writerDepth = some 0 ∧
    (lookupEntry (settle (libDepthWrites ++ rootDepthWrites)) "openssl"
      "shared").map OptEntry.writerDepth = some 0 ∧
    (lookupEntry (settle (libDepthWrites ++ rootDepthWrites)) "openssl"
      "no_dso").map OptEntry.writerDepth = some 0 ∧
    lookupValue (settleGraph (buildGraph s t wp)) "openssl" "shared"
      = some true ∧
    lookupValue (settleGraph (buildGraph s t wp)) "openssl" "no_dso"
      = some false := by
  decide

/-- C3: in every resolution run, the libp11 recipe is registered into
the recipe registry strictly before the reference
`libp11/0.4.11@user/stable` is required, and immediately after that
requirement the builder re-enters the freshly registered libp11 recipe's
own `requirements()`, which yields `openssl/3.2.1`, before continuing
the outer traversal. -/
theorem C3_dynamic_registration_order : ∀ (s t wp : Bool),
    TraceEv.registered "libp11" ∈ (buildGraph s t wp).trace ∧
    TraceEv.requiredEv rootName "libp11" DepKind.requiresDep
      ∈ (buildGraph s t wp).trace ∧
    (buildGraph s t wp).trace.findIdx (fun e => e == TraceEv.registered "libp11")
      < (buildGraph s t wp).trace.findIdx
          (fun e => e == TraceEv.requiredEv rootName "libp11" DepKind.requiresDep) ∧
    ((buildGraph s t wp).trace.drop
      ((buildGraph s t wp).trace.findIdx
        (fun e => e == TraceEv.requiredEv rootName "libp11" DepKind.requiresDep)
        + 1)).take 2
      = [TraceEv.entered "libp11",
         TraceEv.requiredEv "libp11" "openssl" DepKind.requiresDep] := by
  decide

/-- C4, counterexample to the claim as stated: the root recipe's
`configure()` does not leave the option values of every other node
unchanged — it changes the openssl node's `shared` value, and openssl is
a node other than the root. -/
theorem C4_counterexample :
    rootName ≠ "openssl" ∧
    ¬ (lookupValue (applyConfigure RecipeId.appRoot 0 []) "openssl" "shared"
        = lookupValue ([] : Store) "openssl" "shared") := by
  decide

/-- C4, amended: a recipe's `configure()` mutates only option values,
and only those of the nodes its writes explicitly target (here the
dependency openssl); the option values of every node not targeted by any
of its writes are left unchanged. -/
theorem C4_configure_frame (r : RecipeId) (d : Nat) (st : Store)
    (n k : String) (h : ∀ w ∈ configureWrites r, w.target ≠ n) :
    lookupValue (applyConfigure r d st) n k = lookupValue st n k :=
  lookupValue_foldl_writes (configureWrites r) d st n k h

/-- C4, witness: the root's configure targets only openssl, so the gtest
node's option values are unchanged by it. -/
theorem C4_configure_frame_witness :
    (∀ w ∈ configureWrites RecipeId.appRoot, w.target ≠ "gtest") ∧
    lookupValue (applyConfigure RecipeId.appRoot 0 []) "gtest" "shared"
      = lookupValue ([] : Store) "gtest" "shared" :=
  ⟨by decide,
   C4_configure_frame RecipeId.appRoot 0 [] "gtest" "shared" (by decide)⟩

/-- C5: for every value of `with_poco`, the application recipe's
requirement list contains `poco/1.13.2` iff `with_poco` is true, and
contains `gtest/1.14.0`, `grpc/1.54.3`, `openssl/3.2.1` and
`libp11/0.4.11@user/stable` unconditionally. -/
theorem C5_conditional_poco : ∀ (wp : Bool),
    ((pocoRef ∈ appRequiredRefs wp) ↔ wp = true) ∧
    gtestRef ∈ appRequiredRefs wp ∧
    grpcRef ∈ appRequiredRefs wp ∧
    opensslRef ∈ appRequiredRefs wp ∧
    libp11Ref ∈ appRequiredRefs wp := by
  decide

/-- C6: in every resolved graph of the application recipe, the
`BuildRequires` edges (protobuf and grpc tool requirements) are in the
build-time execution graph but excluded from the runtime closure:
protobuf, whose only incoming edges are `BuildRequires`, is absent from
the runtime closure; grpc is in the runtime closure, and only through
its `Requires` edge — removing that one edge removes grpc from the
runtime closure. -/
theorem C6_build_requires_excluded : ∀ (s t wp : Bool),
    "grpc" ∈ runtimeClosure (buildGraph s t wp) ∧
    "protobuf" ∉ runtimeClosure (buildGraph s t wp) ∧
    "grpc" ∈ buildtimeClosure (buildGraph s t wp) ∧
    "protobuf" ∈ buildtimeClosure (buildGraph s t wp) ∧
    Edge.mk rootName "grpc" DepKind.requiresDep ∈ (buildGraph s t wp).edges ∧
    Edge.mk rootName "grpc" DepKind.buildRequiresDep ∈ (buildGraph s t wp).edges ∧
    Edge.mk rootName "protobuf" DepKind.buildRequiresDep
      ∈ (buildGraph s t wp).edges ∧
    (∀ e ∈ (buildGraph s t wp).edges,
      e.dst = "protobuf" → e.kind = DepKind.buildRequiresDep) ∧
    "grpc" ∉ reachFrom
      (((buildGraph s t wp).edges.filter
          (fun e => e.kind == DepKind.requiresDep)).filter
        (fun e => !(e.src == rootName && e.dst == "grpc"))) rootName := by
  decide

/-- C7: resolution is deterministic — any two runs of the builder on the
application recipe with the same `with_poco` input, under any two
internal traversal-order choices, produce the same node set, the same
edge set and the same settled option store; in particular the two runs
agree on whether `poco/1.13.2` is a node, which holds iff `with_poco`
is true. -/
theorem C7_deterministic_resolution : ∀ (s1 t1 s2 t2 wp : Bool),
    (∀ p ∈ (buildGraph s1 t1 wp).nodes, p ∈ (buildGraph s2 t2 wp).nodes) ∧
    (∀ p ∈ (buildGraph s2 t2 wp).nodes, p ∈ (buildGraph s1 t1 wp).nodes) ∧
    (∀ e ∈ (buildGraph s1 t1 wp).edges, e ∈ (buildGraph s2 t2 wp).edges) ∧
    (∀ e ∈ (buildGraph s2 t2 wp).edges, e ∈ (buildGraph s1 t1 wp).edges) ∧
    settleGraph (buildGraph s1 t1 wp) = settleGraph (buildGraph s2 t2 wp) ∧
    ((pocoRef ∈ (buildGraph s1 t1 wp).nodes)
      ↔ (pocoRef ∈ (buildGraph s2 t2 wp).nodes)) ∧
    ((pocoRef ∈ (buildGraph s1 t1 wp).nodes) ↔ wp = true) := by
  decide

/-- C8: the libp11 node's build phase executes exactly autoreconf, then
configure, then make, in that order; the install step is executed only
in the package phase; and the node's phases run in the order source,
generate, build, package, with package after build. -/
theorem C8_lifecycle_order :
    libp11PhaseSteps Phase.buildP
      = [BuildStep.autoreconfStep, BuildStep.configureStep, BuildStep.makeStep] ∧
    (∀ ph : Phase,
      BuildStep.installStep ∈ libp11PhaseSteps ph ↔ ph = Phase.packageP) ∧
    nodePhaseOrder
      = [Phase.sourceP, Phase.generateP, Phase.buildP, Phase.packageP] ∧
    nodePhaseOrder.findIdx (fun p => p == Phase.buildP)
      < nodePhaseOrder.findIdx (fun p => p == Phase.packageP) ∧
    libp11Steps
      = [BuildStep.cloneStep, BuildStep.genToolchain, BuildStep.genAutotoolsDeps,
         BuildStep.genPkgConfigDeps, BuildStep.autoreconfStep,
         BuildStep.configureStep, BuildStep.makeStep, BuildStep.installStep] := by
  decide

/-- C9: `LibP11.source` issues exactly one git clone, of
`https://github.com/OpenSC/libp11.git`, with depth 1 and branch selector
equal to the recipe's `branch` attribute (`libp11-0.4.11`), into the
current source directory; when the fetch fails, the failure surfaces as
a `FetchError`. -/
theorem C9_single_shallow_clone :
    libp11SourceCmds.length = 1 ∧
    libp11SourceCmds
      = [CloneCmd.mk "https://github.com/OpenSC/libp11.git" 1 libp11Branch "."] ∧
    libp11Branch = "libp11-0.4.11" ∧
    (∀ ok : Bool, libp11Source ok
      = if ok then Except.ok ()
        else Except.error
          (FetchError.fetchFailed "https://github.com/OpenSC/libp11.git")) :=
  ⟨rfl, rfl, rfl, fun ok => by cases ok <;> rfl⟩

/-- C10: the dynamically registered recipe declares name `libp11` and
version `0.4.11`, exactly the name and version components of the
reference `libp11/0.4.11@user/stable` the application then requires;
exporting it with user `user` and channel `stable` yields precisely that
reference, and the cloned git branch `libp11-0.4.11` contains the same
version string. -/
theorem C10_registration_matches_reference :
    libp11Name = libp11Ref.name ∧
    libp11Version = libp11Ref.version ∧
    exportedRef RecipeId.libp11R "user" "stable" = libp11Ref ∧
    (∃ p : String, libp11Branch = p ++ libp11Version) ∧
    ReqAction.exportRecipe RecipeId.libp11R "user" "stable"
      ∈ appRequirements true ∧
    ReqAction.exportRecipe RecipeId.libp11R "user" "stable"
      ∈ appRequirements false :=
  ⟨rfl, rfl, by decide, ⟨"libp11-", by decide⟩, by decide, by decide⟩

end ConanSpec
